import Mathlib

/-!
Shallow embedding of the NTP162 ESP8266 clock-and-weather controller
(the single Arduino sketch of this repository).  Pure helpers are
translated directly; the stateful main loop, the weather refresh and the
NTP server fallback are modelled as explicit state-passing functions.
External collaborators (the TLS client, the ArduinoJson deserializer and
the NTPClient library) are supplied by the environment as parameters.
The 32-bit unsigned arithmetic of `millis()` and of epoch differences is
modelled explicitly modulo 2^32.
-/

/-- Modulus of `unsigned long` / `unsigned int` on the ESP8266 (32 bit). -/
def u32 : Nat := 4294967296

/-- C `unsigned long` subtraction `a - b` (wrap-around at 2^32), for
`millis()`-based timers. -/
def usub32 (a b : Nat) : Nat := (u32 + a % u32 - b % u32) % u32

/-- C subtraction `(unsigned long)a - (unsigned long)b` where the operands
are signed C values (`timeClient.getEpochTime() - current_dt`): the result
is the representative in `[0, 2^32)`. -/
def usubI (a b : Int) : Int := (a - b) % (u32 : Int)

-- Constants of the sketch.

/-- Sketch constant `#define FETCH_INTERVAL 900` (seconds). -/
def FETCH_INTERVAL : Int := 900

/-- Sketch constant `#define FORECAST_HOURS 8`. -/
def FORECAST_HOURS : Nat := 8

/-- Sketch constant `const long utcOffsetInSeconds = -10800`. -/
def utcOffsetInSeconds : Int := -10800

/-- Sketch constant `int maxUI = 3` (highest screen index). -/
def maxUI : Int := 3

/-- Sketch constant `int minUI = -2` (lowest screen index). -/
def minUI : Int := -2

/-- Sketch constant `#define MAX_RESPONSE_SIZE 4096`. -/
def MAX_RESPONSE_SIZE : Nat := 4096

/-- Size of the global destination buffer `char scrollBuffer[17]`. -/
def scrollBufferSize : Nat := 17

/-- Default value of the `width` parameter of `getScrollWindow`
(`int width = 17`), the one used by both callers. -/
def defaultScrollWidth : Nat := 17

/-- Translation of `getScrollWindow(const char* src, char* dest, int pos,
int width = 17)`: the C function fills `dest[0..width-1]` and terminates
with `dest[width] = 0`; here the returned list is the written character
content (the terminator is not a character of the result).  `pos % len`
and `(pos + i) % len` use C truncated `%`, i.e. `Int.tmod`. -/
def getScrollWindow (src : List Char) (pos : Int) (width : Nat := 17) : List Char :=
  if src.length = 0 then []
  else
    let len : Int := (src.length : Int)
    let p := Int.tmod pos len
    (List.range width).map (fun (i : Nat) =>
      let idx := Int.tmod (p + (i : Int)) len
      if idx < len then src.getD idx.toNat ' ' else ' ')

/-- Destination indices written by `getScrollWindow`: for an empty source
only `dest[0] = 0`; otherwise `dest[i]` for `i < width` in the loop, plus
the terminator `dest[width] = 0` after it. -/
def getScrollWindowWrites (src : List Char) (width : Nat) : List Nat :=
  if src.length = 0 then [0] else List.range width ++ [width]

/-- Translation of `upperFirstLetter`: uppercase the first character of a
non-empty string. -/
def upperFirstLetter (s : String) : String :=
  match s.data with
  | [] => s
  | c :: cs => String.mk (c.toUpper :: cs)

/-- Translation of `int button(int analogValue)`: range-bucketing of the
analog sample into 0 = None, 1 = Select, 2 = Left, 3 = Down, 4 = Up,
5 = Right. -/
def button (analogValue : Int) : Int :=
  if analogValue > 1010 then 0
  else if analogValue > 900 then 1
  else if analogValue > 600 then 2
  else if analogValue > 300 then 3
  else if analogValue > 100 then 4
  else if analogValue ≥ 0 then 5
  else 0

/-- The module-scope UI variables of the sketch that the main loop reads
and writes (`counter`, `counterUD`, their `last*` shadows, the global and
the per-renderer redraw timers, the scroll position). -/
structure UIState where
  counter : Int
  lastCounter : Int
  counterUD : Int
  lastCounterUD : Int
  lastMillis : Nat
  lastUIMillis : Nat
  updateInterval : Nat
  scrollPos : Nat
  lastDateMillis : Nat
  lastNetworkMillis : Nat
  lastNTPMillis : Nat
  lastWeatherMillis : Nat
deriving DecidableEq

/-- Translation of the `switch (buttonState)` handler of `loop()`:
1 = Select is a no-op, 2 = Left decrements `counter` wrapping to `maxUI`,
3 = Down decrements `counterUD`, 4 = Up increments `counterUD`,
5 = Right increments `counter` wrapping to `minUI`; anything else is a
no-op. -/
def navStep (buttonState : Int) (s : UIState) : UIState :=
  if buttonState = 1 then s
  else if buttonState = 2 then
    let c := s.counter - 1
    { s with counter := if c < minUI then maxUI else c }
  else if buttonState = 3 then { s with counterUD := s.counterUD - 1 }
  else if buttonState = 4 then { s with counterUD := s.counterUD + 1 }
  else if buttonState = 5 then
    let c := s.counter + 1
    { s with counter := if c > maxUI then minUI else c }
  else s

/-- Translation of the button-reading gate at the top of `loop()`:
`if (millis() - lastUIMillis > 666)` read the analog sample and run the
switch. -/
def buttonPhase (analog : Int) (now : Nat) (s : UIState) : UIState :=
  if usub32 now s.lastUIMillis > 666 then navStep (button analog) s else s

/-- One parsed forecast list entry as stored in the global
`Forecast forecast[FORECAST_HOURS]` array.  The `float` fields carry
parsed values that the sketch never computes with, so they are modelled
as integers. -/
structure ForecastEntry where
  dt : Int
  temp : Int
  feels_like : Int
  temp_min : Int
  temp_max : Int
  pressure : Int
  humidity : Int
  pop : Int
  rain_3h : Int
  description : String
deriving DecidableEq

/-- The zero-initialised global `forecast` array (file-scope C array). -/
def initialForecast : List ForecastEntry :=
  List.replicate FORECAST_HOURS ⟨0, 0, 0, 0, 0, 0, 0, 0, 0, ""⟩

/-- The array read `forecast[counterUD]` performed by `printForecast`:
a C array access has a defined value only for indices inside the array,
modelled as `none` outside `[0, length)`. -/
def forecastAccess (forecast : List ForecastEntry) (s : UIState) : Option ForecastEntry :=
  if 0 ≤ s.counterUD ∧ s.counterUD < (forecast.length : Int) then
    forecast.get? s.counterUD.toNat
  else Option.none

/-- Translation of `printTime`: unthrottled; resets `counterUD`, the
update interval and the scroll state, and always draws (`true`). -/
def printTime (s : UIState) : UIState × Bool :=
  ({ s with counterUD := 0, updateInterval := 1000, scrollPos := 0 }, true)

/-- Translation of `printDate`: redraws only when more than 500 ms passed
since `lastDateMillis`. -/
def printDate (now : Nat) (s : UIState) : UIState × Bool :=
  if usub32 now s.lastDateMillis > 500 then ({ s with lastDateMillis := now }, true)
  else (s, false)

/-- Translation of `printNetwork`: redraws only when more than 10000 ms
passed since `lastNetworkMillis`. -/
def printNetwork (now : Nat) (s : UIState) : UIState × Bool :=
  if usub32 now s.lastNetworkMillis > 10000 then ({ s with lastNetworkMillis := now }, true)
  else (s, false)

/-- Translation of `printNTP`: redraws only when more than 1000 ms passed
since `lastNTPMillis`. -/
def printNTP (now : Nat) (s : UIState) : UIState × Bool :=
  if usub32 now s.lastNTPMillis > 1000 then ({ s with lastNTPMillis := now }, true)
  else (s, false)

/-- Translation of `printWeather`: sets `updateInterval = 500`, then
redraws (windowing the text through `getScrollWindow` and advancing
`scrollPos`) only when more than `updateInterval` ms passed since
`lastWeatherMillis`. -/
def printWeather (now : Nat) (s : UIState) : UIState × Bool :=
  let s1 : UIState := { s with updateInterval := 500 }
  if usub32 now s1.lastWeatherMillis > s1.updateInterval then
    ({ s1 with lastWeatherMillis := now, scrollPos := s1.scrollPos + 1 }, true)
  else (s1, false)

/-- Translation of `printForecast`: same throttle and shared
`lastWeatherMillis` timer as `printWeather`; when it draws it reads
`forecast[counterUD]` (see `forecastAccess`). -/
def printForecast (now : Nat) (s : UIState) : UIState × Bool :=
  let s1 : UIState := { s with updateInterval := 500 }
  if usub32 now s1.lastWeatherMillis > s1.updateInterval then
    ({ s1 with lastWeatherMillis := now, scrollPos := s1.scrollPos + 1 }, true)
  else (s1, false)

/-- Translation of the `switch (counter)` render dispatch of `loop()`.
`case -2` has no `break`, so `printNTP` falls through into
`printNetwork`.  The returned boolean says whether the selected
renderer(s) actually drew this tick. -/
def dispatch (now : Nat) (s : UIState) : UIState × Bool :=
  if s.counter = 0 then printTime s
  else if s.counter = -2 then
    let r1 := printNTP now s
    let r2 := printNetwork now r1.1
    (r2.1, r1.2 || r2.2)
  else if s.counter = -1 then printNetwork now s
  else if s.counter = 1 then printDate now s
  else if s.counter = 2 then printWeather now s
  else if s.counter = 3 then printForecast now s
  else printTime s

/-- The entry condition of the redraw block of `loop()`:
`(millis() - lastMillis > updateInterval) || (lastCounter != counter) ||
(lastCounterUD != counterUD)`. -/
def tickEnters (now : Nat) (s : UIState) : Prop :=
  usub32 now s.lastMillis > s.updateInterval ∨
    s.lastCounter ≠ s.counter ∨ s.lastCounterUD ≠ s.counterUD

instance (now : Nat) (s : UIState) : Decidable (tickEnters now s) := by
  unfold tickEnters; infer_instance

/-- Translation of the redraw block of `loop()` (lines 879-946): when the
entry condition holds, record `lastMillis`, acknowledge a changed
`counter`/`counterUD` (refreshing `lastUIMillis`, and clearing the LCD on
a `counter` change), force `counter` back to `0` when more than 60000 ms
passed since `lastUIMillis`, and dispatch the renderer for the resulting
screen.  The `timeClient.update()` / `isTimeSet()` escalation inside the
block touches none of this state (its failure path restarts the device)
and is owned by the NTP collaborator, so it is not part of this state
model.  The boolean reports whether the selected renderer drew. -/
def renderTick (now : Nat) (s : UIState) : UIState × Bool :=
  if tickEnters now s then
    let s1 : UIState := { s with lastMillis := now }
    let s2 : UIState :=
      if s1.lastCounter ≠ s1.counter then
        { s1 with lastCounter := s1.counter, lastUIMillis := now }
      else s1
    let s3 : UIState :=
      if s2.lastCounterUD ≠ s2.counterUD then
        { s2 with lastCounterUD := s2.counterUD, lastUIMillis := now }
      else s2
    let s4 : UIState :=
      if usub32 now s3.lastUIMillis > 60000 then { s3 with counter := 0 } else s3
    dispatch now s4
  else (s, false)

/-- One iteration of `loop()` restricted to the UI state: the button
phase followed by the redraw block (the data fetches at the end of the
loop do not touch `UIState`). -/
def fullTick (analog : Int) (now : Nat) (s : UIState) : UIState :=
  (renderTick now (buttonPhase analog now s)).1

-- Weather / forecast refresh model.

/-- Outcome of a single TLS exchange with `api.openweathermap.org`, as
observed by `getWeatherJSON`: connection refused, 5-second timeout with
no data, or a raw response text. -/
inductive NetResult where
  | connectFail
  | timeout
  | response (raw : String)

/-- One entry of the parsed `doc["list"]` array, with the field values
that `getForecast` extracts (ArduinoJson's defaulting for absent fields
is the parser's concern and is reflected in these values). -/
structure FDoc where
  dt : Int
  temp : Int
  feels_like : Int
  temp_min : Int
  temp_max : Int
  pressure : Int
  humidity : Int
  pop : Int
  rain_3h : Int
  description : String

/-- A deserialized `JsonDocument` restricted to the fields the sketch
reads: `getWeather` reads the top-level weather fields, `getForecast`
reads `doc["list"]`.  A document parsed from a response that lacks a
field yields ArduinoJson's default (0 for numbers, "" for the strings
read with `| ""`), which the environment's parse function supplies. -/
structure JDoc where
  weatherDescription : String
  name : String
  temp : Int
  feels_like : Int
  temp_min : Int
  temp_max : Int
  pressure : Int
  humidity : Int
  dt : Int
  sunset : Int
  sunrise : Int
  list : List FDoc

/-- ArduinoJson null propagation: reading the fields of `list[i]` when
`i` is past the end of the array yields 0 / "" defaults. -/
def defaultFDoc : FDoc := ⟨0, 0, 0, 0, 0, 0, 0, 0, 0, ""⟩

/-- Model of `strchr(weatherJson, 0x7b)`: the suffix starting at the
first opening brace, when one exists. -/
def findBrace : List Char → Option (List Char)
  | [] => Option.none
  | c :: cs => if c = Char.ofNat 123 then Option.some (c :: cs) else findBrace cs

/-- Effect of `getWeatherJSON` on the shared global buffer
`weatherJson`: a failed connect or a timeout returns early leaving the
buffer as it was; otherwise the response (truncated to the buffer size)
is written into it, and if it contains an opening brace the buffer is
shifted to start there (`strcpy(weatherJson, jsonStart)`); with no brace
the function returns with the raw text left in the buffer. -/
def getWeatherJSON (net : NetResult) (buf : String) : String :=
  match net with
  | NetResult.connectFail => buf
  | NetResult.timeout => buf
  | NetResult.response raw =>
      let recv := raw.data.take (MAX_RESPONSE_SIZE - 1)
      match findBrace recv with
      | Option.some j => String.mk j
      | Option.none => String.mk recv

/-- The module-scope data variables of the sketch: the shared response
buffer `weatherJson`, the current-weather snapshot globals, the
`forecast` array and the two last-fetch epochs; `wAttempts`/`fAttempts`
count the `getWeatherJSON` invocations (instrumentation).  The `float`
globals carry parsed values the sketch never computes with, modelled as
integers. -/
structure DataState where
  buf : String
  current_weatherDescription : String
  location_name : String
  current_temp : Int
  current_feels_like : Int
  current_temp_min : Int
  current_temp_max : Int
  current_pressure : Int
  current_humidity : Int
  current_dt : Int
  current_sunset : Int
  current_sunrise : Int
  forecast : List ForecastEntry
  forecast_dt : Int
  wAttempts : Nat
  fAttempts : Nat
deriving DecidableEq

/-- The zero-initialised file-scope data globals at boot. -/
def initialDataState : DataState :=
  ⟨"", "", "", 0, 0, 0, 0, 0, 0, 0, 0, 0, initialForecast, 0, 0, 0⟩

/-- Translation of `void getWeather()`: when
`timeClient.getEpochTime() - current_dt > FETCH_INTERVAL` (32-bit
unsigned comparison), call `getWeatherJSON(false)` and deserialize the
shared buffer; a parse error returns with no field written; otherwise
every current-weather global is rewritten from the document
(`strncpy` bounds the strings to 20 characters and `upperFirstLetter`
capitalises them) and `current_dt = doc["dt"] + utcOffsetInSeconds`.
`parse` is the ArduinoJson deserializer, `net` the TLS exchange outcome,
`now` the NTP epoch. -/
def getWeather (parse : String → Option JDoc) (net : NetResult) (now : Int)
    (s : DataState) : DataState :=
  if usubI now s.current_dt > FETCH_INTERVAL then
    let buf := getWeatherJSON net s.buf
    let s1 : DataState := { s with buf := buf, wAttempts := s.wAttempts + 1 }
    match parse buf with
    | Option.none => s1
    | Option.some doc =>
        { s1 with
          current_weatherDescription := upperFirstLetter (doc.weatherDescription.take 20)
          location_name := upperFirstLetter (doc.name.take 20)
          current_temp := doc.temp
          current_feels_like := doc.feels_like
          current_temp_min := doc.temp_min
          current_temp_max := doc.temp_max
          current_pressure := doc.pressure
          current_humidity := doc.humidity
          current_dt := doc.dt + utcOffsetInSeconds
          current_sunset := doc.sunset
          current_sunrise := doc.sunrise }
  else s

/-- Storing one forecast entry: `dt += utcOffsetInSeconds`, the other
fields copied, the description bounded by `strncpy` to 31 characters and
capitalised. -/
def mkForecastEntry (e : FDoc) : ForecastEntry :=
  ⟨e.dt + utcOffsetInSeconds, e.temp, e.feels_like, e.temp_min, e.temp_max,
    e.pressure, e.humidity, e.pop, e.rain_3h,
    upperFirstLetter (e.description.take 31)⟩

/-- The extraction loop of `getForecast`: for `i < FORECAST_HOURS` read
`list[i]` (defaults past the end of the array) and store it. -/
def extractForecast (list : List FDoc) : List ForecastEntry :=
  (List.range FORECAST_HOURS).map (fun i => mkForecastEntry ((list.get? i).getD defaultFDoc))

/-- Translation of `void getForecast()`: when
`timeClient.getEpochTime() - forecast_dt > FETCH_INTERVAL*4`, first set
`forecast_dt = timeClient.getEpochTime()` (before any network activity),
then call `getWeatherJSON(true)` and deserialize the shared buffer; a
parse error returns with the `forecast` array untouched; otherwise the
array is rewritten from `doc["list"]`. -/
def getForecast (parse : String → Option JDoc) (net : NetResult) (now : Int)
    (s : DataState) : DataState :=
  if usubI now s.forecast_dt > FETCH_INTERVAL * 4 then
    let s0 : DataState := { s with forecast_dt := now }
    let buf := getWeatherJSON net s0.buf
    let s1 : DataState := { s0 with buf := buf, fAttempts := s0.fAttempts + 1 }
    match parse buf with
    | Option.none => s1
    | Option.some doc => { s1 with forecast := extractForecast doc.list }
  else s

/-- Iterated once-per-second evaluation of `getWeather`: tick `k` of `n`
runs at epoch `t0 + k`. -/
def runGetWeather (parse : String → Option JDoc) (net : NetResult) (t0 : Int)
    (n : Nat) (s : DataState) : DataState :=
  match n with
  | 0 => s
  | Nat.succ k => runGetWeather parse net (t0 + 1) k (getWeather parse net t0 s)

/-- A deserializer for which every payload is malformed (every fetch
attempt fails at the parse step). -/
def pfail : String → Option JDoc := fun _ => Option.none

-- NTP server fallback model.

/-- Sketch constant `const char* ntpServers[]`. -/
def ntpServers : List String :=
  ["scarlett", "a.ntp.br", "b.ntp.br", "c.ntp.br", "time.nist.gov", "pool.ntp.org"]

/-- Sketch constant `numNTPServers = sizeof(ntpServers)/sizeof(ntpServers[0])`. -/
def numNTPServers : Nat := ntpServers.length

/-- The `for` loop of `int tryNTPServer()` from index `i`: point the
client at server `i` and try `timeClient.update()` (outcome supplied by
the environment as `updateOk`); on success return `i` at once, otherwise
continue with `i + 1`; past the end return -1.  The second component
records which servers were consulted, in order. -/
def tryNTPServerFrom (updateOk : Nat → Bool) (i : Nat) : Int × List Nat :=
  if h : i < numNTPServers then
    if updateOk i then ((i : Int), [i])
    else
      let r := tryNTPServerFrom updateOk (i + 1)
      (r.1, i :: r.2)
  else (-1, [])
termination_by numNTPServers - i

/-- Translation of `int tryNTPServer()` (the loop starts at index 0),
instrumented with the list of servers consulted. -/
def tryNTPServer (updateOk : Nat → Bool) : Int × List Nat :=
  tryNTPServerFrom updateOk 0

-- Shared helper lemmas.

/-- Unsigned 32-bit subtraction of a value from itself is zero. -/
theorem usub32_self (a : Nat) : usub32 a a = 0 := by
  unfold usub32 u32; omega

/-- Character `i` of a scroll window over a non-empty source at a
non-negative offset is the source character at `(pos + i) mod len`. -/
theorem getScrollWindow_char (src : List Char) (pos : Int) (width i : Nat)
    (hs : src ≠ []) (hp : 0 ≤ pos) (hi : i < width) :
    (getScrollWindow src pos width).get? i =
      src.get? (((pos + (i : Int)) % (src.length : Int)).toNat) := by
  have hlen : src.length ≠ 0 := by simpa using hs
  have hn0 : (0 : Int) < (src.length : Int) := by exact_mod_cast Nat.pos_of_ne_zero hlen
  unfold getScrollWindow
  rw [if_neg hlen]
  rw [List.get?_map, List.get?_range hi]
  have h1 : Int.tmod pos (src.length : Int) = pos % (src.length : Int) :=
    Int.tmod_eq_emod hp hn0.le
  have h2 : Int.tmod (pos % (src.length : Int) + (i : Int)) (src.length : Int)
      = (pos + (i : Int)) % (src.length : Int) := by
    rw [Int.tmod_eq_emod (add_nonneg (Int.emod_nonneg _ (by omega)) (by positivity)) hn0.le,
      Int.emod_add_emod]
  simp only [Option.map_some']
  simp only [h1, h2]
  have hlt : (pos + (i : Int)) % (src.length : Int) < (src.length : Int) :=
    Int.emod_lt_of_pos _ hn0
  have hge : 0 ≤ (pos + (i : Int)) % (src.length : Int) :=
    Int.emod_nonneg _ (by omega)
  rw [if_pos hlt]
  have hnat : ((pos + (i : Int)) % (src.length : Int)).toNat < src.length := by omega
  rw [List.getD_eq_get?, List.get?_eq_get hnat]
  simp

/-- C5: for every non-empty source, non-negative offset and positive
width, `getScrollWindow` yields exactly `width` characters, character `i`
of the window is the source character at `(offset + i) mod length`, and
shifting the offset by the source length leaves the window unchanged
(periodicity). -/
theorem getScrollWindow_spec (src : List Char) (pos : Int) (width : Nat)
    (hs : src ≠ []) (hp : 0 ≤ pos) (_hw : 0 < width) :
    (getScrollWindow src pos width).length = width ∧
    (∀ i : Nat, i < width →
      (getScrollWindow src pos width).get? i =
        src.get? (((pos + (i : Int)) % (src.length : Int)).toNat)) ∧
    getScrollWindow src (pos + (src.length : Int)) width = getScrollWindow src pos width := by
  have hlen : src.length ≠ 0 := by simpa using hs
  have hn0 : (0 : Int) < (src.length : Int) := by exact_mod_cast Nat.pos_of_ne_zero hlen
  refine ⟨?_, ?_, ?_⟩
  · unfold getScrollWindow
    rw [if_neg hlen, List.length_map, List.length_range]
  · intro i hi
    exact getScrollWindow_char src pos width i hs hp hi
  · have hper : Int.tmod (pos + (src.length : Int)) (src.length : Int)
        = Int.tmod pos (src.length : Int) := by
      rw [Int.tmod_eq_emod (by omega) hn0.le, Int.tmod_eq_emod hp hn0.le]
      have := Int.add_mul_emod_self_left pos (src.length : Int) 1
      simpa using this
    unfold getScrollWindow
    rw [if_neg hlen, if_neg hlen]
    simp only [hper]

/-- Concrete witness for `getScrollWindow_spec` at source "abc", offset 1
and width 4. -/
def abcList : List Char := ['a', 'b', 'c']

/-- Witness for C5: `getScrollWindow_spec` evaluated at source "abc",
offset 1, width 4, probing column 2. -/
theorem getScrollWindow_spec_witness :
    (getScrollWindow abcList 1 4).length = 4 ∧
    (getScrollWindow abcList 1 4).get? 2 =
      abcList.get? (((1 + (2 : Int)) % (abcList.length : Int)).toNat) ∧
    getScrollWindow abcList (1 + (abcList.length : Int)) 4 = getScrollWindow abcList 1 4 := by
  obtain ⟨h1, h2, h3⟩ := getScrollWindow_spec abcList 1 4 (by decide) (by decide) (by decide)
  exact ⟨h1, h2 2 (by decide), h3⟩

/-- C10: the terminator write of `getScrollWindow` at the default width
17 lands at destination index 17, which is not within the bounds of the
17-byte `scrollBuffer` that `printWeather` and `printForecast` pass (its
valid indices are 0..16): a one-byte out-of-bounds write. -/
theorem scroll_terminator_write_out_of_bounds :
    defaultScrollWidth ∈ getScrollWindowWrites abcList defaultScrollWidth ∧
    ¬ defaultScrollWidth < scrollBufferSize := by decide

/-- C6: the button decoder is total and deterministic: the six result
symbols partition the integer samples into contiguous, non-overlapping
ranges ordered from highest (None) down to lowest (Right), the Right
bucket catching all remaining non-negative samples and every negative
sample decoding to None. -/
theorem button_total_partition (v : Int) :
    (button v = 0 ↔ 1010 < v ∨ v < 0) ∧
    (button v = 1 ↔ 900 < v ∧ v ≤ 1010) ∧
    (button v = 2 ↔ 600 < v ∧ v ≤ 900) ∧
    (button v = 3 ↔ 300 < v ∧ v ≤ 600) ∧
    (button v = 4 ↔ 100 < v ∧ v ≤ 300) ∧
    (button v = 5 ↔ 0 ≤ v ∧ v ≤ 100) := by
  unfold button
  split_ifs <;> refine ⟨?_, ?_, ?_, ?_, ?_, ?_⟩ <;> omega

/-- C7: pressing Right on the highest screen wraps to the lowest screen,
pressing Left on the lowest wraps to the highest, and every navigation
command keeps the screen index inside `[minUI, maxUI]`. -/
theorem navigation_ring (b : Int) (s : UIState)
    (h1 : minUI ≤ s.counter) (h2 : s.counter ≤ maxUI) :
    (navStep 5 { s with counter := maxUI }).counter = minUI ∧
    (navStep 2 { s with counter := minUI }).counter = maxUI ∧
    minUI ≤ (navStep b s).counter ∧ (navStep b s).counter ≤ maxUI := by
  simp only [minUI, maxUI] at h1 h2
  unfold navStep
  simp only [minUI, maxUI]
  refine ⟨by norm_num, by norm_num, ?_, ?_⟩ <;> split_ifs <;> simp_all <;> omega

/-- Concrete in-range UI state (on the forecast screen, all timers at
their boot values) used by several witnesses. -/
def c9state : UIState := ⟨3, 3, 0, 0, 0, 0, 1000, 0, 0, 0, 0, 0⟩

/-- Witness for C7: `navigation_ring` applied at a concrete state on
screen 3 with a None command. -/
theorem navigation_ring_witness :
    (navStep 5 { c9state with counter := maxUI }).counter = minUI ∧
    minUI ≤ (navStep 0 c9state).counter := by
  obtain ⟨h1, _, h3, _⟩ := navigation_ring 0 c9state (by decide) (by decide)
  exact ⟨h1, h3⟩

/-- C9: on an evaluation tick with no pending navigation change that
enters the redraw block more than 60000 ms after `lastUIMillis`, the
screen index is forced back to the home screen 0, whatever it was. -/
theorem idle_timeout_resets_screen (now : Nat) (s : UIState)
    (hc : s.lastCounter = s.counter) (hud : s.lastCounterUD = s.counterUD)
    (henter : tickEnters now s)
    (hidle : usub32 now s.lastUIMillis > 60000) :
    (renderTick now s).1.counter = 0 := by
  unfold renderTick
  rw [if_pos henter]
  simp [hc, hud, hidle, dispatch, printTime]

/-- Witness for C9: an idle tick at 100000 ms on screen 3 returns to
screen 0. -/
theorem idle_timeout_resets_screen_witness :
    (renderTick 100000 c9state).1.counter = 0 :=
  idle_timeout_resets_screen 100000 c9state rfl rfl (by decide) (by decide)

/-- C4 (amended): a change of `counter` makes the redraw block run this
very tick (bypassing the global `updateInterval` timer) and the display
is cleared, but the per-screen redraw timers are not reset: the clock
screen (counter 0) does draw immediately, while the network screen
(counter -1) draws nothing when its own 10-second timer has not yet
elapsed. -/
theorem screen_switch_forces_dispatch (now : Nat) (s : UIState)
    (h : s.lastCounter ≠ s.counter) :
    tickEnters now s ∧
    (s.counter = 0 → (renderTick now s).2 = true) ∧
    (s.counter = -1 → usub32 now s.lastNetworkMillis ≤ 10000 →
      (renderTick now s).2 = false) := by
  have henter : tickEnters now s := Or.inr (Or.inl h)
  refine ⟨henter, ?_, ?_⟩
  · intro h0
    have h' : s.lastCounter ≠ 0 := by rw [h0] at h; exact h
    unfold renderTick
    rw [if_pos henter]
    by_cases hud : s.lastCounterUD = s.counterUD <;>
      simp [h', hud, h0, usub32_self, dispatch, printTime]
  · intro h0 hnet
    have h' : s.lastCounter ≠ -1 := by rw [h0] at h; exact h
    have hnet' : ¬ usub32 now s.lastNetworkMillis > 10000 := by omega
    unfold renderTick
    rw [if_pos henter]
    by_cases hud : s.lastCounterUD = s.counterUD <;>
      simp [h', hud, h0, usub32_self, dispatch, printNetwork, hnet']

/-- Concrete UI state the counterexample of C4 uses: the user just
switched to the network screen (counter -1) while `printNetwork` last
drew 5 seconds ago. -/
def c4state : UIState := ⟨-1, 0, 0, 0, 20000, 19000, 1000, 0, 0, 15000, 0, 0⟩

/-- Counterexample to C4 as stated: at this tick `counter` changed (the
block runs immediately), yet the newly selected network screen's
renderer draws nothing, because its own 10-second timer has not elapsed:
the first display of the newly selected screen IS delayed. -/
theorem screen_switch_draw_delayed :
    c4state.lastCounter ≠ c4state.counter ∧
    tickEnters 20000 c4state ∧
    (renderTick 20000 c4state).2 = false := by decide

/-- Concrete UI state: the user just switched to the clock screen. -/
def c4home : UIState := ⟨0, 3, 0, 0, 20000, 19000, 1000, 0, 0, 15000, 0, 0⟩

/-- Witness for C4 (amended): `screen_switch_forces_dispatch` at a
concrete switch to the clock screen, which does draw immediately. -/
theorem screen_switch_forces_dispatch_witness :
    tickEnters 20000 c4home ∧ (renderTick 20000 c4home).2 = true := by
  obtain ⟨h1, h2, _⟩ := screen_switch_forces_dispatch 20000 c4home (by decide)
  exact ⟨h1, h2 rfl⟩

/-- Start state of the C3 scenario: sitting on the forecast screen with
the sub-index at 0, 500 ms after the last redraw. -/
def c3s0 : UIState := ⟨3, 3, 0, 0, 500, 0, 500, 0, 0, 0, 0, 500⟩

/-- Eight loop iterations, one per second, each sampling the analog
value 200 (an Up press). -/
def c3run : UIState :=
  (List.range 8).foldl (fun s k => fullTick 200 ((k + 1) * 1000) s) c3s0

/-- C3 fails on the code: eight Up presses on the forecast screen drive
`counterUD` to 8 with no modulo reduction anywhere, and `printForecast`
(which would draw on the next tick) reads `forecast[counterUD]`, an
access outside the 8-entry array (`forecastAccess` has no defined
value). -/
theorem forecast_index_out_of_bounds :
    c3run.counter = 3 ∧ c3run.counterUD = 8 ∧
    initialForecast.length = FORECAST_HOURS ∧
    forecastAccess initialForecast c3run = Option.none ∧
    (renderTick 9000 c3run).2 = true := by decide

/-- One due `getWeather` evaluation whose payload does not parse: the
fetch counter advances, and `current_dt` and every snapshot field keep
their values (with a failed connect the buffer is also unchanged). -/
theorem getWeather_fail_step (parse : String → Option JDoc) (now : Int)
    (s : DataState) (hp : parse s.buf = Option.none)
    (hdue : usubI now s.current_dt > FETCH_INTERVAL) :
    (getWeather parse NetResult.connectFail now s).wAttempts = s.wAttempts + 1 ∧
    (getWeather parse NetResult.connectFail now s).current_dt = s.current_dt ∧
    (getWeather parse NetResult.connectFail now s).buf = s.buf := by
  unfold getWeather
  rw [if_pos hdue]
  simp [getWeatherJSON, hp]

/-- Once-per-second evaluation of `getWeather` against a connection that
always fails and a buffer that never parses: every one of the `n` due
ticks invokes the fetch, and `current_dt` never moves. -/
theorem runGetWeather_all_fail (parse : String → Option JDoc) (t0 : Int) (n : Nat)
    (s : DataState) (hp : parse s.buf = Option.none)
    (hd : ∀ k : Nat, k < n → usubI (t0 + (k : Int)) s.current_dt > FETCH_INTERVAL) :
    (runGetWeather parse NetResult.connectFail t0 n s).wAttempts = s.wAttempts + n ∧
    (runGetWeather parse NetResult.connectFail t0 n s).current_dt = s.current_dt ∧
    (runGetWeather parse NetResult.connectFail t0 n s).buf = s.buf := by
  induction n generalizing t0 s with
  | zero => simp [runGetWeather]
  | succ m ih =>
      have h0 : usubI t0 s.current_dt > FETCH_INTERVAL := by
        have := hd 0 (by omega)
        simpa using this
      obtain ⟨ha1, ha2, ha3⟩ := getWeather_fail_step parse t0 s hp h0
      have hp' : parse (getWeather parse NetResult.connectFail t0 s).buf = Option.none := by
        rw [ha3]; exact hp
      have hd' : ∀ k : Nat, k < m →
          usubI ((t0 + 1) + (k : Int))
            (getWeather parse NetResult.connectFail t0 s).current_dt > FETCH_INTERVAL := by
        intro k hk
        rw [ha2]
        have := hd (k + 1) (by omega)
        have heq : t0 + ((k + 1 : Nat) : Int) = (t0 + 1) + (k : Int) := by push_cast; ring
        rwa [heq] at this
      obtain ⟨hb1, hb2, hb3⟩ := ih (t0 + 1) (getWeather parse NetResult.connectFail t0 s) hp' hd'
      have hr : runGetWeather parse NetResult.connectFail t0 (m + 1) s =
          runGetWeather parse NetResult.connectFail (t0 + 1) m
            (getWeather parse NetResult.connectFail t0 s) := rfl
      refine ⟨?_, ?_, ?_⟩
      · rw [hr, hb1, ha1]; omega
      · rw [hr, hb2, ha2]
      · rw [hr, hb3, ha3]

/-- C1 (amended): with a current-weather fetch that fails on every
attempt (connect refused, buffer never parseable), `getWeather`
evaluated once per second invokes the underlying fetch on EVERY due
tick — `current_dt` is advanced only by a successful parse, so the due
condition keeps holding and the code busy-retries once per evaluation,
not at most twice per interval. -/
theorem weather_fetch_every_due_tick (parse : String → Option JDoc) (t0 : Int)
    (n : Nat) (s : DataState) (hp : parse s.buf = Option.none)
    (hd : ∀ k : Nat, k < n → usubI (t0 + (k : Int)) s.current_dt > FETCH_INTERVAL) :
    (runGetWeather parse NetResult.connectFail t0 n s).wAttempts = s.wAttempts + n ∧
    (runGetWeather parse NetResult.connectFail t0 n s).current_dt = s.current_dt := by
  obtain ⟨h1, h2, _⟩ := runGetWeather_all_fail parse t0 n s hp hd
  exact ⟨h1, h2⟩

/-- Witness for C1 (amended): two due one-second ticks from the boot
state with an always-failing fetch yield two fetch invocations. -/
theorem weather_fetch_every_due_tick_witness :
    (runGetWeather pfail NetResult.connectFail 1000 2 initialDataState).wAttempts
      = initialDataState.wAttempts + 2 :=
  (weather_fetch_every_due_tick pfail 1000 2 initialDataState rfl (by decide)).1

/-- Counterexample to C1 as stated: an always-failing fetch checked once
per second for 1000 seconds (all of them due) invokes the underlying
fetch 1000 times, not at most twice. -/
theorem weather_fetched_far_more_than_twice :
    ¬ (runGetWeather pfail NetResult.connectFail 1000 1000 initialDataState).wAttempts ≤ 2 := by
  have hd : ∀ k : Nat, k < 1000 →
      usubI ((1000 : Int) + (k : Int)) initialDataState.current_dt > FETCH_INTERVAL := by
    intro k hk
    have hk' : (k : Int) < 1000 := by exact_mod_cast hk
    have hc : initialDataState.current_dt = 0 := rfl
    rw [hc]
    unfold usubI u32 FETCH_INTERVAL
    rw [Int.emod_eq_of_lt (by omega) (by omega)]
    omega
  have h := (runGetWeather_all_fail pfail 1000 1000 initialDataState rfl hd).1
  rw [h]
  decide

/-- The current-weather snapshot globals together with their last-success
timestamp `current_dt` (the data C2 says a failed fetch must preserve). -/
def weatherView (s : DataState) :
    String × String × Int × Int × Int × Int × Int × Int × Int × Int × Int :=
  (s.current_weatherDescription, s.location_name, s.current_temp, s.current_feels_like,
   s.current_temp_min, s.current_temp_max, s.current_pressure, s.current_humidity,
   s.current_sunset, s.current_sunrise, s.current_dt)

/-- A `getWeather` evaluation whose resulting buffer does not parse
leaves every snapshot field and `current_dt` unchanged, whatever the
network outcome. -/
theorem getWeather_parse_fail_view (parse : String → Option JDoc) (net : NetResult)
    (now : Int) (s : DataState)
    (hp : parse (getWeatherJSON net s.buf) = Option.none) :
    weatherView (getWeather parse net now s) = weatherView s ∧
    (getWeather parse net now s).forecast = s.forecast := by
  unfold getWeather
  by_cases h : usubI now s.current_dt > FETCH_INTERVAL
  · rw [if_pos h]; simp [weatherView, hp]
  · rw [if_neg h]; exact ⟨rfl, rfl⟩

/-- A `getForecast` evaluation whose resulting buffer does not parse
leaves the forecast array and the weather snapshot unchanged, but when
the attempt was due it still advances `forecast_dt` to the attempt
time. -/
theorem getForecast_parse_fail_view (parse : String → Option JDoc) (net : NetResult)
    (now : Int) (s : DataState)
    (hp : parse (getWeatherJSON net s.buf) = Option.none) :
    (getForecast parse net now s).forecast = s.forecast ∧
    weatherView (getForecast parse net now s) = weatherView s ∧
    (usubI now s.forecast_dt > FETCH_INTERVAL * 4 →
      (getForecast parse net now s).forecast_dt = now) := by
  unfold getForecast
  by_cases h : usubI now s.forecast_dt > FETCH_INTERVAL * 4
  · rw [if_pos h]; simp [weatherView, hp]
  · rw [if_neg h]; exact ⟨rfl, rfl, fun hc => absurd hc h⟩

/-- C2 (amended): when every fetched payload fails to parse, three
consecutive failed weather fetch attempts leave every weather snapshot
field and `current_dt` exactly as before, and a failed forecast attempt
leaves the forecast array untouched — but the forecast last-attempt
timestamp `forecast_dt` IS advanced to the attempt time whenever the
attempt was due, success or not. -/
theorem failed_fetch_preserves_snapshots (parse : String → Option JDoc)
    (net1 net2 net3 netF : NetResult) (t1 t2 t3 tF : Int) (s : DataState)
    (hAll : ∀ b, parse b = Option.none) :
    weatherView (getWeather parse net3 t3 (getWeather parse net2 t2
      (getWeather parse net1 t1 s))) = weatherView s ∧
    (getForecast parse netF tF s).forecast = s.forecast ∧
    (usubI tF s.forecast_dt > FETCH_INTERVAL * 4 →
      (getForecast parse netF tF s).forecast_dt = tF) := by
  obtain ⟨hw1, _⟩ := getWeather_parse_fail_view parse net1 t1 s (hAll _)
  obtain ⟨hw2, _⟩ := getWeather_parse_fail_view parse net2 t2
    (getWeather parse net1 t1 s) (hAll _)
  obtain ⟨hw3, _⟩ := getWeather_parse_fail_view parse net3 t3
    (getWeather parse net2 t2 (getWeather parse net1 t1 s)) (hAll _)
  obtain ⟨hf1, _, hf3⟩ := getForecast_parse_fail_view parse netF tF s (hAll _)
  exact ⟨by rw [hw3, hw2, hw1], hf1, hf3⟩

/-- Witness for C2 (amended): the boot state after three failed weather
attempts and one due failed forecast attempt. -/
theorem failed_fetch_preserves_snapshots_witness :
    weatherView (getWeather pfail NetResult.connectFail 1802
      (getWeather pfail NetResult.connectFail 1801
        (getWeather pfail NetResult.connectFail 1800 initialDataState)))
      = weatherView initialDataState ∧
    (getForecast pfail NetResult.timeout 4000 initialDataState).forecast
      = initialDataState.forecast ∧
    (getForecast pfail NetResult.timeout 4000 initialDataState).forecast_dt = 4000 := by
  obtain ⟨h1, h2, h3⟩ := failed_fetch_preserves_snapshots pfail NetResult.connectFail
    NetResult.connectFail NetResult.connectFail NetResult.timeout 1800 1801 1802 4000
    initialDataState (fun b => rfl)
  exact ⟨h1, h2, h3 (by decide)⟩

/-- Counterexample to C2 as stated: a failed (connect refused, payload
never parseable) but due forecast fetch attempt at epoch 4000 DOES
update the forecast last-fetch timestamp, from 0 to 4000. -/
theorem forecast_dt_updated_on_failed_fetch :
    (getForecast pfail NetResult.connectFail 4000 initialDataState).forecast_dt = 4000 ∧
    initialDataState.forecast_dt = 0 ∧ ((4000 : Int) ≠ 0) := by decide

/-- When every server from index `i` on fails, the loop consults them
all in order and returns -1. -/
theorem tryNTPServerFrom_all_fail (updateOk : Nat → Bool) :
    ∀ n i, numNTPServers - i = n →
      (∀ k, i ≤ k → k < numNTPServers → updateOk k = false) →
      tryNTPServerFrom updateOk i = (-1, List.range' i n) := by
  intro n
  induction n with
  | zero =>
      intro i hn hf
      unfold tryNTPServerFrom
      rw [dif_neg (by omega)]
      simp
  | succ m ih =>
      intro i hn hf
      have hi : i < numNTPServers := by omega
      unfold tryNTPServerFrom
      rw [dif_pos hi]
      rw [ih (i + 1) (by omega) (fun k hk1 hk2 => hf k (by omega) hk2)]
      simp [hf i le_rfl hi, List.range'_succ]

/-- When `j` is the first succeeding server at or past `i`, the loop
consults exactly the servers `i..j` and returns `j` at once. -/
theorem tryNTPServerFrom_success (updateOk : Nat → Bool) (j : Nat)
    (hj : j < numNTPServers) (hjt : updateOk j = true) :
    ∀ n i, j - i = n → i ≤ j →
      (∀ k, i ≤ k → k < j → updateOk k = false) →
      tryNTPServerFrom updateOk i = ((j : Int), List.range' i (n + 1)) := by
  intro n
  induction n with
  | zero =>
      intro i hn hij hf
      have hij' : i = j := by omega
      subst hij'
      unfold tryNTPServerFrom
      rw [dif_pos hj]
      simp [hjt, List.range']
  | succ m ih =>
      intro i hn hij hf
      have hi : i < numNTPServers := by omega
      have hij' : i < j := by omega
      unfold tryNTPServerFrom
      rw [dif_pos hi]
      rw [ih (i + 1) (by omega) (by omega) (fun k hk1 hk2 => hf k (by omega) hk2)]
      simp [hf i le_rfl hij', List.range'_succ]

/-- C8: `tryNTPServer` attempts the configured servers strictly in list
order; the first server whose update succeeds is returned immediately
and no later server is ever consulted; if every server fails it consults
all of them and returns -1. -/
theorem tryNTPServer_first_success (updateOk : Nat → Bool) :
    (∀ j, j < numNTPServers → updateOk j = true →
      (∀ k, k < j → updateOk k = false) →
      tryNTPServer updateOk = ((j : Int), List.range (j + 1))) ∧
    ((∀ k, k < numNTPServers → updateOk k = false) →
      tryNTPServer updateOk = (-1, List.range numNTPServers)) := by
  constructor
  · intro j hj hjt hmin
    have h := tryNTPServerFrom_success updateOk j hj hjt j 0 (by omega) (by omega)
      (fun k _ hk2 => hmin k hk2)
    rw [tryNTPServer, h, List.range_eq_range']
  · intro hf
    have h := tryNTPServerFrom_all_fail updateOk numNTPServers 0 (by omega)
      (fun k _ hk2 => hf k hk2)
    rw [tryNTPServer, h, List.range_eq_range']

/-- Witness for C8: with server 0 failing and server 1 succeeding, the
result is index 1 having consulted exactly servers 0 and 1; with all six
failing, the result is -1 having consulted all six. -/
theorem tryNTPServer_first_success_witness :
    tryNTPServer (fun k => k == 1) = ((1 : Int), List.range 2) ∧
    tryNTPServer (fun _ => false) = (-1, List.range numNTPServers) := by
  constructor
  · have h := (tryNTPServer_first_success (fun k => k == 1)).1 1 (by decide) (by decide)
      (by decide)
    simpa using h
  · exact (tryNTPServer_first_success (fun _ => false)).2 (fun k _ => rfl)
